import Mathlib

/-!
# Verification of the PizzaGPT API client (`pizzagpt_client.py`)

A shallow embedding of the single-file PizzaGPT client library and proofs
about it.  The Python source performs one synchronous HTTP POST per call;
we model the outcome of that POST (the part performed by the `requests`
library) as an explicit `TransportResult` input, and translate the source's
control flow — `raise_for_status`, `response.json()`, the `except` clauses —
into a pure function from that input to a typed outcome.

Two facts about the `requests` library are part of the program's semantics
and are modelled explicitly:

* `Response.raise_for_status()` raises an `HTTPError` exactly when
  `400 <= status_code < 600`, with the response attached to the exception
  and a string form `"{code} Client Error: {reason} for url: {url}"`
  (4xx) or `"{code} Server Error: {reason} for url: {url}"` (5xx).

* `Response.__bool__` returns `self.ok`, i.e. `status_code < 400`.
  Consequently, in the handler
  `if response := getattr(e, 'response', None):` the walrus-assigned
  response is *falsy* for every 4xx/5xx response, so the
  `APIResponseError` branch is never taken for HTTP-level failures and
  the code falls through to `raise APIConnectionError(f"Request failed: …")`.

* On a 2xx (or 3xx) response, `response.json()` raises a
  `requests.exceptions.JSONDecodeError` when the body is not valid JSON;
  that exception is a `RequestException` carrying *no* attached response,
  so it too ends in `APIConnectionError("Request failed: …")`.

Python-level unhandled exceptions (`KeyError` from `response_data['content']`,
`TypeError` from indexing a non-dict with a string) escape both `except`
clauses; they are modelled by a separate `PyFault` outcome constructor.
-/

/-- JSON values, the decoded form of request/response bodies. -/
inductive Json where
  | null
  | bool (b : Bool)
  | num (n : Int)
  | str (s : String)
  | arr (elems : List Json)
  | obj (fields : List (String × Json))
deriving Repr

/-- Lookup in a Python dict produced by `json.loads`: duplicate keys in the
JSON text overwrite earlier ones, so the *last* binding wins. -/
def dictGet (fields : List (String × Json)) (key : String) : Option Json :=
  match fields with
  | [] => none
  | (k, v) :: rest =>
    match dictGet rest key with
    | some w => some w
    | none => if k = key then some v else none

/-- `APIEndpoint` enum of the source. -/
inductive APIEndpoint where
  | CHAT_COMPLETION
deriving Repr, DecidableEq

/-- The `.value` of an `APIEndpoint` member. -/
def APIEndpoint.value : APIEndpoint → String
  | .CHAT_COMPLETION => "chatx-completion"

/-- `APIEnvironment` enum of the source. -/
inductive APIEnvironment where
  | PRODUCTION
  | STAGING
  | DEVELOPMENT
deriving Repr, DecidableEq

/-- The `.value` of an `APIEnvironment` member. -/
def APIEnvironment.value : APIEnvironment → String
  | .PRODUCTION => "https://www.pizzagpt.it"
  | .STAGING => "https://staging.pizzagpt.it"
  | .DEVELOPMENT => "https://dev.pizzagpt.it"

/-- `APICredentials` frozen dataclass. -/
structure APICredentials where
  secret_key : String
  origin : String
deriving Repr, DecidableEq

/-- `APIResponseError(status_code, message)`: the two stored attributes plus
the string the constructor passes to `Exception.__init__`, which becomes
`str(e)`. -/
structure APIResponseError where
  status_code : Int
  message : String
  exnStr : String
deriving Repr, DecidableEq

/-- `APIResponseError.__init__`: stores both arguments and sets the exception
text to `f"API Error {status_code}: {message}"`. -/
def APIResponseError.init (status_code : Int) (message : String) : APIResponseError :=
  { status_code := status_code
    message := message
    exnStr := "API Error " ++ toString status_code ++ ": " ++ message }

/-- `APIResponse` dataclass.  The `timestamp` field (`datetime.now()`) is
wall-clock time and carries no verifiable content; it is omitted. -/
structure APIResponse where
  content : Json
  raw_response : List (String × Json)
deriving Repr

/-- Python exceptions the source raises but never catches: indexing a dict
without the key (`KeyError`) and string-indexing a non-dict (`TypeError`). -/
inductive PyFault where
  | keyError (key : String)
  | typeError
deriving Repr, DecidableEq

/-- What `response.json()` finds in the body of an HTTP response:
not JSON at all (carrying the `JSONDecodeError` text), a JSON object
(as its field list), or valid JSON that is not an object. -/
inductive BodyData where
  | notJson (decodeErrStr : String)
  | jsonObj (fields : List (String × Json))
  | jsonNonObj (j : Json)
deriving Repr

/-- An HTTP response as seen by the client: status code, the server's reason
phrase (used by `raise_for_status` in the `HTTPError` text) and the body. -/
structure HTTPResponse where
  status_code : Nat
  reason : String
  body : BodyData
deriving Repr

/-- The outcome of `self.session.post(...)` and of reading its response:
either the connection failed (`requests.exceptions.ConnectionError`, with
`str(e)` as the cause text), or an HTTP response arrived, or some other
`RequestException` with no attached response occurred (e.g. a read
timeout), again with its `str(e)`. -/
inductive TransportResult where
  | connectionFailure (cause : String)
  | response (r : HTTPResponse)
  | otherRequestError (cause : String)
deriving Repr

/-- The observable outcome of `PizzaGPTClient.send_request`: a returned
`APIResponse`, a raised `APIConnectionError` (whose one argument is its
message), a raised `APIResponseError`, or an unhandled Python fault. -/
inductive SendOutcome where
  | success (r : APIResponse)
  | connError (msg : String)
  | respError (e : APIResponseError)
  | pyFault (f : PyFault)
deriving Repr

/-- `PizzaGPTClient` state after `__init__` / `_configure_session`:
the chosen environment, the (possibly defaulted) credentials, the timeout
and the session headers installed by `_configure_session`. -/
structure PizzaGPTClient where
  environment : APIEnvironment
  credentials : APICredentials
  timeout : Nat
  headers : List (String × String)
deriving Repr, DecidableEq

/-- `PizzaGPTClient.__init__` followed by `_configure_session`.
Python defaults: `environment=APIEnvironment.PRODUCTION`, `credentials=None`,
`timeout=30`; `credentials or APICredentials(secret_key="Marinara",
origin=environment.value)` supplies the fallback. -/
def PizzaGPTClient.init (environment : APIEnvironment)
    (credentials : Option APICredentials) (timeout : Nat) : PizzaGPTClient :=
  let creds := credentials.getD
    { secret_key := "Marinara", origin := environment.value }
  { environment := environment
    credentials := creds
    timeout := timeout
    headers :=
      [ ("accept", "application/json")
      , ("content-type", "application/json")
      , ("origin", creds.origin)
      , ("x-secret", creds.secret_key) ] }

/-- The client constructed with all Python defaults. -/
def defaultClient : PizzaGPTClient :=
  PizzaGPTClient.init .PRODUCTION none 30

/-- The URL computed by `send_request`:
`f"{self.environment.value}/api/{endpoint.value}"`. -/
def requestUrl (c : PizzaGPTClient) (endpoint : APIEndpoint) : String :=
  c.environment.value ++ "/api/" ++ endpoint.value

/-- `str(e)` of the `HTTPError` raised by `raise_for_status` for a status in
[400, 600): requests formats `"{code} Client Error: {reason} for url: {url}"`
for 4xx and `"{code} Server Error: {reason} for url: {url}"` for 5xx. -/
def httpErrorStr (status : Nat) (reason url : String) : String :=
  if status < 500 then
    toString status ++ " Client Error: " ++ reason ++ " for url: " ++ url
  else
    toString status ++ " Server Error: " ++ reason ++ " for url: " ++ url

/-- `PizzaGPTClient.send_request(endpoint, data)`, as a function of the
transport outcome `t` of the POST.  Mirrors the source line by line:

* `except requests.exceptions.ConnectionError as e:` →
  `APIConnectionError(f"Failed to connect to {url}: {str(e)}")`;
* `response.raise_for_status()` raises `HTTPError` for 400 ≤ status < 600;
  the handler's `if response := getattr(e, 'response', None):` then tests
  the *truthiness* of the attached response, which is `status < 400`
  (`Response.__bool__` is `self.ok`) — hence false here, so the code falls
  through to `APIConnectionError(f"Request failed: {str(e)}")`;
* a non-JSON body on a non-error status raises `JSONDecodeError`, a
  `RequestException` with no attached response →
  `APIConnectionError(f"Request failed: {str(e)}")`;
* `response_data['content']` raises `KeyError` when the key is absent and
  `TypeError` when `response_data` is not a dict; neither is caught. -/
def send_request (c : PizzaGPTClient) (endpoint : APIEndpoint)
    (_data : List (String × Json)) (t : TransportResult) : SendOutcome :=
  let url := requestUrl c endpoint
  match t with
  | .connectionFailure cause =>
    .connError ("Failed to connect to " ++ url ++ ": " ++ cause)
  | .otherRequestError cause =>
    .connError ("Request failed: " ++ cause)
  | .response r =>
    if 400 ≤ r.status_code ∧ r.status_code < 600 then
      .connError ("Request failed: " ++ httpErrorStr r.status_code r.reason url)
    else
      match r.body with
      | .notJson decodeErrStr => .connError ("Request failed: " ++ decodeErrStr)
      | .jsonNonObj _ => .pyFault .typeError
      | .jsonObj fields =>
        match dictGet fields "content" with
        | some x => .success { content := x, raw_response := fields }
        | none => .pyFault (.keyError "content")

/-- `PizzaGPTService` after `__init__`. -/
structure PizzaGPTService where
  client : PizzaGPTClient
deriving Repr, DecidableEq

/-- `PizzaGPTService.__init__`: `self.client = client or PizzaGPTClient()`. -/
def PizzaGPTService.init (client : Option PizzaGPTClient) : PizzaGPTService :=
  { client := client.getD defaultClient }

/-- The service constructed with all Python defaults. -/
def defaultService : PizzaGPTService :=
  PizzaGPTService.init none

/-- Observable outcome of `PizzaGPTService.get_response`: the returned
content string, or the propagated error. -/
inductive GetOutcome where
  | ok (content : Json)
  | connError (msg : String)
  | respError (e : APIResponseError)
  | pyFault (f : PyFault)
deriving Repr

/-- `PizzaGPTService.get_response(question)`: wraps the question as
`{"question": question}`, calls `send_request` with the chat-completion
endpoint, returns `response.content` on success; the
`except (APIConnectionError, APIResponseError)` clause logs and bare-`raise`s
the same exception object, and any other fault propagates uncaught. -/
def get_response (svc : PizzaGPTService) (question : String)
    (t : TransportResult) : GetOutcome :=
  match send_request svc.client .CHAT_COMPLETION
      [("question", Json.str question)] t with
  | .success r => .ok r.content
  | .connError m => .connError m
  | .respError e => .respError e
  | .pyFault f => .pyFault f

/-! ## Concrete inputs used by witnesses and counterexamples -/

/-- A successful body `{"content": "Hello!"}`. -/
def okBody : List (String × Json) := [("content", Json.str "Hello!")]

/-- A 200 response carrying `okBody`. -/
def okResp : HTTPResponse :=
  { status_code := 200, reason := "OK", body := .jsonObj okBody }

/-- A 200 response whose JSON object body lacks the `content` key. -/
def noContentResp : HTTPResponse :=
  { status_code := 200, reason := "OK"
    body := .jsonObj [("answer", Json.str "Hello!")] }

/-- A 429 response with body `{"statusCode": 429, "message": "rate limited"}`. -/
def rateLimitedResp : HTTPResponse :=
  { status_code := 429, reason := "Too Many Requests"
    body := .jsonObj [("statusCode", Json.num 429), ("message", Json.str "rate limited")] }

/-- A 500 response whose JSON body has `statusCode` but no `message`. -/
def onlyStatusCodeResp : HTTPResponse :=
  { status_code := 500, reason := "Internal Server Error"
    body := .jsonObj [("statusCode", Json.num 429)] }

/-- A 500 response whose body is not valid JSON (e.g. an HTML error page);
the field records the `JSONDecodeError` text `json.loads` would produce. -/
def htmlErrorResp : HTTPResponse :=
  { status_code := 500, reason := "Internal Server Error"
    body := .notJson "Expecting value: line 1 column 1 (char 0)" }

/-! ## Claims -/

/-- C1: for every question `q`, if the POST returns a 2xx response whose JSON
body contains a `content` field with value `x`, then
`PizzaGPTService.get_response q` returns exactly `x`. -/
theorem get_response_returns_content
    (svc : PizzaGPTService) (q : String) (r : HTTPResponse)
    (fields : List (String × Json)) (x : Json)
    (h2xx : 200 ≤ r.status_code ∧ r.status_code < 300)
    (hbody : r.body = BodyData.jsonObj fields)
    (hcontent : dictGet fields "content" = some x) :
    get_response svc q (.response r) = .ok x := by
  have hne : ¬ (400 ≤ r.status_code ∧ r.status_code < 600) := by omega
  simp [get_response, send_request, hne, hbody, hcontent]

/-- C1 witness: a concrete 200 response with body `{"content": "Hello!"}`
makes `get_response` return `"Hello!"`. -/
theorem get_response_returns_content_witness :
    get_response defaultService "Hi" (.response okResp) = .ok (Json.str "Hello!") :=
  get_response_returns_content defaultService "Hi" okResp okBody (Json.str "Hello!")
    (by decide) rfl rfl

/-- C2: evaluation of `send_request` at a 429 response with body
`{"statusCode": 429, "message": "rate limited"}`.  The claim (and the
source's own docstrings) say this raises
`APIResponseError(429, "rate limited")`; because `requests.Response.__bool__`
is `self.ok`, the walrus test `if response := getattr(e, 'response', None):`
is false for the 4xx response, and the code instead raises
`APIConnectionError("Request failed: <str(HTTPError)>")`. -/
theorem http_error_with_fields_raises_connection_error_429 :
    send_request defaultClient .CHAT_COMPLETION [("question", Json.str "Hi")]
        (.response rateLimitedResp) =
      .connError ("Request failed: 429 Client Error: Too Many Requests for url: https://www.pizzagpt.it/api/chatx-completion") ∧
    ∀ err : APIResponseError,
      send_request defaultClient .CHAT_COMPLETION [("question", Json.str "Hi")]
        (.response rateLimitedResp) ≠ .respError err := by
  have h : send_request defaultClient .CHAT_COMPLETION [("question", Json.str "Hi")]
      (.response rateLimitedResp) =
      .connError ("Request failed: 429 Client Error: Too Many Requests for url: https://www.pizzagpt.it/api/chatx-completion") := rfl
  exact ⟨h, fun err hc => SendOutcome.noConfusion (h.symm.trans hc)⟩

/-- C3 counterexample: a 500 response whose JSON body is
`{"statusCode": 429}` (no `message`).  The claim says `send_request` raises
a ResponseError carrying the raw HTTP status 500 and the exception text;
in fact it raises `APIConnectionError("Request failed: …")` — no
ResponseError at all. -/
theorem missing_message_field_not_raw_response_error :
    send_request defaultClient .CHAT_COMPLETION [("question", Json.str "Hi")]
        (.response onlyStatusCodeResp) =
      .connError ("Request failed: 500 Server Error: Internal Server Error for url: https://www.pizzagpt.it/api/chatx-completion") ∧
    send_request defaultClient .CHAT_COMPLETION [("question", Json.str "Hi")]
        (.response onlyStatusCodeResp) ≠
      .respError (APIResponseError.init 500 "500 Server Error: Internal Server Error for url: https://www.pizzagpt.it/api/chatx-completion") := by
  have h : send_request defaultClient .CHAT_COMPLETION [("question", Json.str "Hi")]
      (.response onlyStatusCodeResp) =
      .connError ("Request failed: 500 Server Error: Internal Server Error for url: https://www.pizzagpt.it/api/chatx-completion") := rfl
  exact ⟨h, fun hc => SendOutcome.noConfusion (h.symm.trans hc)⟩

/-- C3 amended: for every HTTP-level failure (status 400–599) whose body is
a valid JSON object missing `statusCode` or `message`, `send_request` raises
an `APIConnectionError` whose message is `"Request failed: "` followed by the
exception's string form (the ResponseError branch is unreachable for HTTP
errors, because the attached response is falsy). -/
theorem http_error_missing_fields_raises_connection_error
    (c : PizzaGPTClient) (e : APIEndpoint) (data : List (String × Json))
    (r : HTTPResponse) (fields : List (String × Json))
    (herr : 400 ≤ r.status_code ∧ r.status_code < 600)
    (_hbody : r.body = BodyData.jsonObj fields)
    (_hmiss : dictGet fields "statusCode" = none ∨ dictGet fields "message" = none) :
    send_request c e data (.response r) =
      .connError ("Request failed: " ++ httpErrorStr r.status_code r.reason (requestUrl c e)) := by
  simp [send_request, herr]

/-- C3 amended witness: the concrete 500 response with body
`{"statusCode": 429}` yields the connection error. -/
theorem http_error_missing_fields_witness :
    send_request defaultClient .CHAT_COMPLETION [("question", Json.str "Hi")]
        (.response onlyStatusCodeResp) =
      .connError ("Request failed: 500 Server Error: Internal Server Error for url: https://www.pizzagpt.it/api/chatx-completion") :=
  http_error_missing_fields_raises_connection_error defaultClient .CHAT_COMPLETION
    [("question", Json.str "Hi")] onlyStatusCodeResp
    [("statusCode", Json.num 429)] (by decide) rfl (Or.inr rfl)

/-- C4: evaluation of `send_request` at a 500 response with a non-JSON body.
The claim says this raises `APIResponseError(500, str(e))`; in fact
`raise_for_status` raises before `response.json()` is ever called, the
attached response is falsy, and the code raises
`APIConnectionError("Request failed: <str(HTTPError)>")`. -/
theorem non_json_error_body_raises_connection_error_500 :
    send_request defaultClient .CHAT_COMPLETION [("question", Json.str "Hi")]
        (.response htmlErrorResp) =
      .connError ("Request failed: 500 Server Error: Internal Server Error for url: https://www.pizzagpt.it/api/chatx-completion") ∧
    send_request defaultClient .CHAT_COMPLETION [("question", Json.str "Hi")]
        (.response htmlErrorResp) ≠
      .respError (APIResponseError.init 500 "500 Server Error: Internal Server Error for url: https://www.pizzagpt.it/api/chatx-completion") := by
  have h : send_request defaultClient .CHAT_COMPLETION [("question", Json.str "Hi")]
      (.response htmlErrorResp) =
      .connError ("Request failed: 500 Server Error: Internal Server Error for url: https://www.pizzagpt.it/api/chatx-completion") := rfl
  exact ⟨h, fun hc => SendOutcome.noConfusion (h.symm.trans hc)⟩

/-- C5: a 2xx response whose valid-JSON object body lacks the `content` key
makes `send_request` fail with the unhandled `KeyError('content')`, which is
none of the typed outcomes (not an `APIConnectionError`, not an
`APIResponseError`, not a success — hence not a `PizzaGPTError` at all). -/
theorem missing_content_key_is_unhandled_fault
    (c : PizzaGPTClient) (e : APIEndpoint) (data : List (String × Json))
    (r : HTTPResponse) (fields : List (String × Json))
    (h2xx : 200 ≤ r.status_code ∧ r.status_code < 300)
    (hbody : r.body = BodyData.jsonObj fields)
    (hmiss : dictGet fields "content" = none) :
    send_request c e data (.response r) = .pyFault (.keyError "content") ∧
    (∀ m, send_request c e data (.response r) ≠ .connError m) ∧
    (∀ err, send_request c e data (.response r) ≠ .respError err) ∧
    (∀ resp, send_request c e data (.response r) ≠ .success resp) := by
  have hne : ¬ (400 ≤ r.status_code ∧ r.status_code < 600) := by omega
  have h : send_request c e data (.response r) = .pyFault (.keyError "content") := by
    simp [send_request, hne, hbody, hmiss]
  exact ⟨h, fun m hm => SendOutcome.noConfusion (h.symm.trans hm),
    fun err he => SendOutcome.noConfusion (h.symm.trans he),
    fun resp hs => SendOutcome.noConfusion (h.symm.trans hs)⟩

/-- C5 witness: the concrete 200 response with body `{"answer": "Hello!"}`
(no `content` key) produces the `KeyError` fault. -/
theorem missing_content_key_witness :
    send_request defaultClient .CHAT_COMPLETION [] (.response noContentResp) =
      .pyFault (.keyError "content") :=
  (missing_content_key_is_unhandled_fault defaultClient .CHAT_COMPLETION []
    noContentResp [("answer", Json.str "Hello!")] (by decide) rfl rfl).1

/-- C6: whenever the underlying `send_request` raises an
`APIConnectionError` or an `APIResponseError`, `get_response` re-raises the
very same error unchanged — same kind, same carried message / status code. -/
theorem get_response_reraises_unchanged
    (svc : PizzaGPTService) (q : String) (t : TransportResult) :
    (∀ m, send_request svc.client .CHAT_COMPLETION [("question", Json.str q)] t =
        .connError m → get_response svc q t = .connError m) ∧
    (∀ err, send_request svc.client .CHAT_COMPLETION [("question", Json.str q)] t =
        .respError err → get_response svc q t = .respError err) := by
  constructor <;> intro a h <;> simp [get_response, h]

/-- C6 witness: a concrete transport connection failure propagates through
`get_response` as the same connection error. -/
theorem get_response_reraises_unchanged_witness :
    get_response defaultService "Hi" (.connectionFailure "Connection refused") =
      .connError "Failed to connect to https://www.pizzagpt.it/api/chatx-completion: Connection refused" :=
  (get_response_reraises_unchanged defaultService "Hi"
      (.connectionFailure "Connection refused")).1
    "Failed to connect to https://www.pizzagpt.it/api/chatx-completion: Connection refused" rfl

/-- C7: the target URL built by `send_request` is
`<environment base>/api/<endpoint path>`; for the production environment and
the chat-completion endpoint it is exactly
`https://www.pizzagpt.it/api/chatx-completion`. -/
theorem request_url_format :
    (∀ (c : PizzaGPTClient) (e : APIEndpoint),
      requestUrl c e = c.environment.value ++ "/api/" ++ e.value) ∧
    requestUrl defaultClient .CHAT_COMPLETION =
      "https://www.pizzagpt.it/api/chatx-completion" :=
  ⟨fun _ _ => rfl, rfl⟩

/-- C8: constructing a client with no credentials yields credentials whose
origin is the environment's base URL and whose secret key is the fixed
non-empty default `"Marinara"`, and those values populate the `origin` and
`x-secret` session headers. -/
theorem default_credentials_populate_headers (env : APIEnvironment) (t : Nat) :
    (PizzaGPTClient.init env none t).credentials.origin = env.value ∧
    (PizzaGPTClient.init env none t).credentials.secret_key = "Marinara" ∧
    "Marinara" ≠ "" ∧
    (PizzaGPTClient.init env none t).headers.lookup "origin" = some env.value ∧
    (PizzaGPTClient.init env none t).headers.lookup "x-secret" = some "Marinara" := by
  cases env <;> refine ⟨rfl, rfl, by decide, ?_, ?_⟩ <;> rfl

/-- C9: a transport-level connection failure makes `send_request` raise an
`APIConnectionError` whose message contains the attempted target URL and the
underlying cause description — it is exactly
`"Failed to connect to <url>: <cause>"`. -/
theorem connection_failure_message_contains_url
    (c : PizzaGPTClient) (e : APIEndpoint) (data : List (String × Json))
    (cause : String) :
    send_request c e data (.connectionFailure cause) =
      .connError ("Failed to connect to " ++ requestUrl c e ++ ": " ++ cause) :=
  rfl

/-- C10: `APIResponseError(s, m)` stores `s` and `m` in its `status_code` and
`message` attributes, while its exception text (its string form) is exactly
`"API Error <s>: <m>"`. -/
theorem api_response_error_fields_and_text (s : Int) (m : String) :
    (APIResponseError.init s m).status_code = s ∧
    (APIResponseError.init s m).message = m ∧
    (APIResponseError.init s m).exnStr = "API Error " ++ toString s ++ ": " ++ m :=
  ⟨rfl, rfl, rfl⟩
